import Mathlib

/-!
Shallow embedding of the listings screen of the Hotel-Directory repository
(src/frontend/app/listings.tsx): the paginated, filtered fetch state machine,
the star-rating renderer, the sub-location filter toggle, the phone-number
cleaners and the query-string builder, together with theorems about them.
-/

/-- Mirror of the `Property` interface of listings.tsx. -/
structure Property where
  _id : String
  homestay_name : String
  location : String
  sub_location : String
  google_address : String
  google_phone : String
  google_rating : ℚ
  number_of_reviews : Nat
  google_maps_link : String
  photo_url : String
  category : String
  amenities : String
  tariff : String
deriving DecidableEq

/-- Mirror of the `APIResponse` interface of listings.tsx. -/
structure APIResponse where
  properties : List Property
  total : Nat
  page : Nat
  per_page : Nat
  total_pages : Nat
deriving DecidableEq

/-- Mirror of the `FilterState` interface of listings.tsx
(`min_rating` is `number | null` in the source). -/
structure FilterState where
  search : String
  location : String
  sub_location : String
  category : String
  min_rating : Option ℚ
  sort_by : String
deriving DecidableEq

/-- The component state of `ListingScreen` that the fetch logic touches:
the `useState` hooks `properties`, `loading`, `refreshing`, `page`,
`hasMore`, `total` and `filters`. -/
structure ListingState where
  properties : List Property
  loading : Bool
  refreshing : Bool
  page : Nat
  hasMore : Bool
  total : Nat
  filters : FilterState
deriving DecidableEq

/-- A network request issued by `fetchProperties(pageNum, newFilters, isRefresh)`:
the arguments it was invoked with. -/
structure Request where
  pageNum : Nat
  newFilters : FilterState
  isRefresh : Bool
deriving DecidableEq

/-- The query string built by `fetchProperties` via `URLSearchParams`:
`page`, `per_page` and `sort_by` always; each optional filter is spread in
only when the corresponding value is truthy in JavaScript (non-empty string;
for `min_rating`, non-null and non-zero). -/
def buildParams (pageNum : Nat) (newFilters : FilterState) : List (String × String) :=
  [(("page"), toString pageNum), (("per_page"), ("20")), (("sort_by"), newFilters.sort_by)]
  ++ (if newFilters.search = ("") then [] else [(("search"), newFilters.search)])
  ++ (if newFilters.location = ("") then [] else [(("location"), newFilters.location)])
  ++ (if newFilters.sub_location = ("") then [] else [(("sub_location"), newFilters.sub_location)])
  ++ (if newFilters.category = ("") then [] else [(("category"), newFilters.category)])
  ++ (match newFilters.min_rating with
      | some r => if r = 0 then [] else [(("min_rating"), toString r)]
      | none => [])

/-- The query string of a request. -/
def Request.params (r : Request) : List (String × String) :=
  buildParams r.pageNum r.newFilters

/-- The synchronous prefix of `fetchProperties` before its `await`:
for a first-page request the matching spinner flag is set
(`isRefresh ? setRefreshing(true) : setLoading(true)`); for any other page
no flag is touched. -/
def fetchStart (s : ListingState) (pageNum : Nat) (isRefresh : Bool) : ListingState :=
  if pageNum = 1 then
    (if isRefresh then { s with refreshing := true } else { s with loading := true })
  else s

/-- The success continuation of `fetchProperties`: page 1 replaces the list,
any later page appends; `total` and `hasMore` are taken from the response
(`setHasMore(pageNum < data.total_pages)`); the `finally` block clears both
spinner flags. -/
def fetchSuccess (s : ListingState) (pageNum : Nat) (data : APIResponse) : ListingState :=
  { s with
    properties := if pageNum = 1 then data.properties else s.properties ++ data.properties,
    total := data.total,
    hasMore := decide (pageNum < data.total_pages),
    loading := false,
    refreshing := false }

/-- The catch-plus-finally path of `fetchProperties`: an alert message is
surfaced and the spinner flags are cleared; nothing else changes. -/
def fetchFailure (s : ListingState) : ListingState × String :=
  ({ s with loading := false, refreshing := false },
   ("Failed to load properties. Please try again."))

/-- `handleLoadMore`: guarded by `if (!loading && hasMore)`; when the guard
passes it advances the page cursor and issues a request for the next page. -/
def handleLoadMore (s : ListingState) : ListingState × Option Request :=
  if !s.loading && s.hasMore then
    (fetchStart { s with page := s.page + 1 } (s.page + 1) false,
     some { pageNum := s.page + 1, newFilters := s.filters, isRefresh := false })
  else (s, none)

/-- `handleRefresh`: unconditionally resets the page cursor and issues a
first-page request with the current filters and the refresh flag set. -/
def handleRefresh (s : ListingState) : ListingState × Request :=
  (fetchStart { s with page := 1 } 1 true,
   { pageNum := 1, newFilters := s.filters, isRefresh := true })

/-- The effect `useEffect(..., [filters])`: after `setFilters(f)` it runs
`setPage(1)` and `fetchProperties(1, f)`. -/
def applyFilterChange (s : ListingState) (f : FilterState) : ListingState × Request :=
  (fetchStart { s with filters := f, page := 1 } 1 false,
   { pageNum := 1, newFilters := f, isRefresh := false })

/-- The sub-location leaf `onPress` handler in `renderFilterSection`: two
sequential `handleFilterChange` updater calls; the toggle condition reads the
render-time `filters` value. -/
def selectSubLocationLeaf (filters : FilterState) (loc nm : String) : FilterState :=
  let afterLocation := { filters with location := loc }
  { afterLocation with
    sub_location :=
      if filters.location = loc ∧ filters.sub_location = nm then ("") else nm }

/-- `renderStars`: `floor(rating)` full stars, one half star when
`rating % 1 !== 0`, then `5 - ceil(rating)` outline stars, modelled by the
Ionicons glyph names pushed into the array. -/
def renderStars (rating : ℚ) : List String :=
  let fullStars := (⌊rating⌋).toNat
  let halfList := if Int.fract rating ≠ 0 then [("star-half")] else []
  let emptyStars := ((5 : ℤ) - ⌈rating⌉).toNat
  List.replicate fullStars ("star") ++ halfList ++ List.replicate emptyStars ("star-outline")

/-- `handleCall`: strip every character that is not a digit and not a plus
sign, then open the `tel:` URL. -/
def cleanPhoneForCall (phoneNumber : String) : String :=
  String.mk (phoneNumber.data.filter (fun c => c.isDigit || c == '+'))

/-- The URL opened by `handleCall`. -/
def handleCallUrl (phoneNumber : String) : String :=
  ("tel:") ++ cleanPhoneForCall phoneNumber

/-- `handleWhatsApp`: strip every non-digit character. -/
def cleanPhoneForWhatsApp (phoneNumber : String) : String :=
  String.mk (phoneNumber.data.filter Char.isDigit)

/-- The URL opened by `handleWhatsApp`. -/
def handleWhatsAppUrl (phoneNumber : String) : String :=
  ("whatsapp://send?phone=") ++ cleanPhoneForWhatsApp phoneNumber

/-- A key is present in a query string. -/
def hasParam (ps : List (String × String)) (k : String) : Prop :=
  ∃ v, (k, v) ∈ ps

/-- The screen together with its in-flight requests. `pending` holds every
issued request whose response has not yet arrived, in issue order. -/
structure World where
  st : ListingState
  pending : List Request
deriving DecidableEq

/-- An event of the event-driven UI: a filter change (which triggers the
filters effect), an infinite-scroll trigger, a pull-to-refresh trigger, or
the arrival of the response of the i-th in-flight request. -/
inductive UIEvent where
  | changeFilters (f : FilterState)
  | loadMore
  | refresh
  | respondSuccess (i : Nat) (d : APIResponse)
  | respondFailure (i : Nat)

/-- One step of the event-driven UI. Responses may arrive in any order;
the code applies whichever response resolves, with no generation check. -/
def step (w : World) : UIEvent → World
  | .changeFilters f =>
      { st := (applyFilterChange w.st f).1,
        pending := w.pending ++ [(applyFilterChange w.st f).2] }
  | .loadMore =>
      match handleLoadMore w.st with
      | (s2, some r) => { st := s2, pending := w.pending ++ [r] }
      | (s2, none) => { st := s2, pending := w.pending }
  | .refresh =>
      { st := (handleRefresh w.st).1,
        pending := w.pending ++ [(handleRefresh w.st).2] }
  | .respondSuccess i d =>
      match w.pending[i]? with
      | some r => { st := fetchSuccess w.st r.pageNum d, pending := w.pending.eraseIdx i }
      | none => w
  | .respondFailure i =>
      match w.pending[i]? with
      | some _ => { st := (fetchFailure w.st).1, pending := w.pending.eraseIdx i }
      | none => w

/-- Run a list of events from a world. -/
def runEvents (w : World) (es : List UIEvent) : World :=
  es.foldl step w

/-- Apply a run of successful sequential responses, the first with page
number k, the next with k+1, and so on. -/
def runPagesFrom : ListingState → Nat → List APIResponse → ListingState
  | s, _, [] => s
  | s, k, d :: ds => runPagesFrom (fetchSuccess s k d) (k + 1) ds

/-- Apply a run of successful sequential responses for pages 1, 2, ... -/
def runPages (s : ListingState) (ds : List APIResponse) : ListingState :=
  runPagesFrom s 1 ds

/-- Iterate `handleLoadMore` n times, collecting every issued request. -/
def loadMoreIter : ListingState → Nat → ListingState × List Request
  | s, 0 => (s, [])
  | s, n + 1 =>
    match handleLoadMore s with
    | (s2, some r) => ((loadMoreIter s2 n).1, r :: (loadMoreIter s2 n).2)
    | (s2, none) => loadMoreIter s2 n

/-- The initial `useState` value of `filters`. -/
def emptyFilters : FilterState :=
  { search := "", location := "", sub_location := "", category := "",
    min_rating := none, sort_by := "reviews_desc" }

/-- The initial `useState` values of the listing screen. -/
def initialState : ListingState :=
  { properties := [], loading := false, refreshing := false,
    page := 1, hasMore := true, total := 0, filters := emptyFilters }

/-- A sample property located in Dooars. -/
def propDooars : Property :=
  { _id := "p1", homestay_name := "Green Valley Homestay", location := "Dooars",
    sub_location := "Lataguri", google_address := "Lataguri, Dooars",
    google_phone := "+91 98300-11111", google_rating := 9/2,
    number_of_reviews := 120, google_maps_link := "https://maps.example/p1",
    photo_url := "https://img.example/p1.jpg", category := "Homestay",
    amenities := "WiFi", tariff := "Rs 2000" }

/-- A sample property located in Kalimpong. -/
def propKalimpong : Property :=
  { _id := "p2", homestay_name := "Hill View Resort", location := "Kalimpong",
    sub_location := "Delo", google_address := "Delo, Kalimpong",
    google_phone := "+91 98300-22222", google_rating := 4,
    number_of_reviews := 80, google_maps_link := "https://maps.example/p2",
    photo_url := "https://img.example/p2.jpg", category := "Resort",
    amenities := "Parking", tariff := "Rs 3500" }

/-- Filters selecting the Dooars location. -/
def filtersDooars : FilterState := { emptyFilters with location := "Dooars" }

/-- Filters selecting the Kalimpong location. -/
def filtersKalimpong : FilterState := { emptyFilters with location := "Kalimpong" }

/-- The backend response for the Dooars filter. -/
def respDooars : APIResponse :=
  { properties := [propDooars], total := 1, page := 1, per_page := 20, total_pages := 1 }

/-- The backend response for the Kalimpong filter. -/
def respKalimpong : APIResponse :=
  { properties := [propKalimpong], total := 1, page := 1, per_page := 20, total_pages := 1 }

/-- A first page of a two-page result set. -/
def respFirstOfTwo : APIResponse :=
  { properties := [propDooars], total := 2, page := 1, per_page := 20, total_pages := 2 }

/-- A state whose pagination has halted. -/
def sNoMore : ListingState := { initialState with hasMore := false }

/-- A state with a first-page fetch in flight. -/
def sLoading : ListingState := { initialState with loading := true }

/-- Filters with the Lataguri leaf under Dooars selected. -/
def filtersSel : FilterState :=
  { emptyFilters with location := "Dooars", sub_location := "Lataguri" }

/-- The initial world: initial state, no request in flight. -/
def world0 : World := { st := initialState, pending := [] }

/-- A ready world: the first page of a two-page result set has loaded. -/
def worldReady : World :=
  { st := fetchSuccess initialState 1 respFirstOfTwo, pending := [] }

/-- The race trace: the filter changes from Dooars to Kalimpong while the
Dooars request is still in flight, and the Kalimpong response arrives first. -/
def raceTrace : List UIEvent :=
  [UIEvent.changeFilters filtersDooars,
   UIEvent.changeFilters filtersKalimpong,
   UIEvent.respondSuccess 1 respKalimpong,
   UIEvent.respondSuccess 0 respDooars]

/-- The failure trace: a Dooars first page loads, then a filter change to
Kalimpong issues a first-page request that fails. -/
def failTrace : List UIEvent :=
  [UIEvent.changeFilters filtersDooars,
   UIEvent.respondSuccess 0 respDooars,
   UIEvent.changeFilters filtersKalimpong,
   UIEvent.respondFailure 0]

/-- A sample phone number as stored in the dataset. -/
def phoneSample : String := "+91 34123-45678"

set_option maxRecDepth 10000

theorem hasParam_append (l1 l2 : List (String × String)) (k : String) :
    hasParam (l1 ++ l2) k ↔ hasParam l1 k ∨ hasParam l2 k := by
  simp [hasParam, List.mem_append, exists_or]

theorem hasParam_cons (x : String × String) (l : List (String × String)) (k : String) :
    hasParam (x :: l) k ↔ k = x.1 ∨ hasParam l k := by
  simp [hasParam, List.mem_cons, exists_or, Prod.ext_iff]

theorem hasParam_nil (k : String) : ¬ hasParam [] k := by
  simp [hasParam]

theorem hasParam_opt (c : Prop) [Decidable c] (x : String × String) (k : String) :
    hasParam (if c then [] else [x]) k ↔ ¬ c ∧ k = x.1 := by
  split_ifs with h <;> simp [hasParam, Prod.ext_iff, h]

theorem runPagesFrom_concat : ∀ (ds : List APIResponse) (s : ListingState) (k : Nat), 2 ≤ k →
    (runPagesFrom s k ds).properties = s.properties ++ (ds.map APIResponse.properties).flatten := by
  intro ds
  induction ds with
  | nil =>
    intro s k hk
    simp [runPagesFrom]
  | cons d ds ih =>
    intro s k hk
    have hk1 : ¬ (k = 1) := by omega
    simp only [runPagesFrom]
    rw [ih _ (k + 1) (by omega)]
    simp [fetchSuccess, hk1, List.append_assoc]

/-- Claim C1: the code is expected to discard the response of a superseded
(stale-generation) request; this theorem evaluates the embedded code on the
failing trace. After the filter changes from Dooars to Kalimpong and the
Kalimpong response is applied, the late Dooars response still overwrites the
displayed list, so the screen shows the stale filter's items: responses are
applied in arrival order, with no generation check. -/
theorem stale_response_last_arrival_wins :
    (runEvents world0 (raceTrace.take 3)).st.properties.map Property.location = [("Kalimpong")]
  ∧ (runEvents world0 raceTrace).st.filters = filtersKalimpong
  ∧ (runEvents world0 raceTrace).st.properties.map Property.location = [("Dooars")]
  ∧ (runEvents world0 raceTrace).pending = []
  ∧ filtersKalimpong.location = ("Kalimpong")
  ∧ (("Dooars") : String) ≠ ("Kalimpong") :=
  ⟨rfl, rfl, rfl, rfl, rfl, by decide⟩

/-- Claim C2 counterexample: a Dooars first page is displayed, a filter change
to Kalimpong issues a first-page request (page number 1), and that request
fails; the previously displayed list is NOT cleared — the catch block of
`fetchProperties` never touches `properties` — refuting the claim that a
failed first-page fetch clears any previous results and shows the empty
state. -/
theorem failed_first_page_leaves_previous_list :
    (runEvents world0 (failTrace.take 3)).pending.map Request.pageNum = [1]
  ∧ (runEvents world0 failTrace).st.properties = respDooars.properties
  ∧ respDooars.properties ≠ [] :=
  ⟨rfl, rfl, by simp [respDooars]⟩

/-- Claim C2 (amended): on request failure an alert message is surfaced and
the two spinner flags are cleared, but the accumulated list — and every other
piece of state — is left intact on ANY failure, first-page or next-page; the
retry affordance re-issues a page-1 request with the current filters, whose
query string is identical to that of a failed first-page request under the
same filters. -/
theorem fetch_failure_preserves_list_and_retry : ∀ (s : ListingState),
    (fetchFailure s).1.properties = s.properties
  ∧ (fetchFailure s).1.page = s.page
  ∧ (fetchFailure s).1.total = s.total
  ∧ (fetchFailure s).1.hasMore = s.hasMore
  ∧ (fetchFailure s).1.filters = s.filters
  ∧ (fetchFailure s).1.loading = false
  ∧ (fetchFailure s).1.refreshing = false
  ∧ (fetchFailure s).2 = ("Failed to load properties. Please try again.")
  ∧ (handleRefresh s).2.pageNum = 1
  ∧ (handleRefresh s).2.newFilters = s.filters
  ∧ (handleRefresh s).2.params = buildParams 1 s.filters :=
  fun s => ⟨rfl, rfl, rfl, rfl, rfl, rfl, rfl, rfl, rfl, rfl, rfl⟩

/-- Claim C3: when `hasMore` is false, `handleLoadMore` issues no request and
returns the state unchanged in every component. -/
theorem loadMore_without_hasMore_is_noop :
    ∀ (s : ListingState), s.hasMore = false → handleLoadMore s = (s, none) := by
  intro s h
  unfold handleLoadMore
  rw [h]
  simp

/-- Witness for claim C3 at a concrete halted state. -/
theorem loadMore_without_hasMore_is_noop_witness :
    sNoMore.hasMore = false ∧ handleLoadMore sNoMore = (sNoMore, none) :=
  ⟨rfl, loadMore_without_hasMore_is_noop sNoMore rfl⟩

/-- Claim C4: for every rating in [0,5] the star renderer emits exactly
`floor(rating)` full glyphs, exactly one half glyph iff the fractional part is
non-zero, and outline glyphs for the remainder, always totalling exactly 5;
with the four concrete cases 0, 5, 3.5 and 4.2. -/
theorem renderStars_glyph_counts :
    (∀ (r : ℚ), 0 ≤ r → r ≤ 5 →
        (renderStars r).length = 5
      ∧ ((renderStars r).count ("star") : ℤ) = ⌊r⌋
      ∧ (renderStars r).count ("star-half") = (if Int.fract r = 0 then 0 else 1)
      ∧ ((renderStars r).count ("star-outline") : ℤ)
          = 5 - ⌊r⌋ - (if Int.fract r = 0 then 0 else 1))
  ∧ renderStars 0 = List.replicate 5 ("star-outline")
  ∧ renderStars 5 = List.replicate 5 ("star")
  ∧ renderStars (7/2) = [("star"), ("star"), ("star"), ("star-half"), ("star-outline")]
  ∧ renderStars (21/5) = [("star"), ("star"), ("star"), ("star"), ("star-half")] := by
  refine ⟨?_, ?_, ?_, ?_, ?_⟩
  · intro r h0 h5
    have hfl0 : 0 ≤ ⌊r⌋ := Int.floor_nonneg.mpr h0
    have hcle5 : ⌈r⌉ ≤ 5 := Int.ceil_le.mpr (by exact_mod_cast h5)
    have hflle : ⌊r⌋ ≤ ⌈r⌉ := Int.floor_le_ceil r
    by_cases hz : Int.fract r = 0
    · have hceq : ⌈r⌉ = ⌊r⌋ := by
        have h := hz
        simp only [Int.fract] at h
        have hreq : r = (⌊r⌋ : ℚ) := by linarith
        conv_lhs => rw [hreq]
        exact Int.ceil_intCast _
      refine ⟨?_, ?_, ?_, ?_⟩ <;>
        simp [renderStars, hz, List.count_append, List.count_replicate_self,
          List.count_replicate] <;>
        omega
    · have hlt : (⌊r⌋ : ℚ) < r := by
        rcases lt_or_eq_of_le (Int.floor_le r) with h | h
        · exact h
        · exact absurd (h ▸ Int.fract_intCast ⌊r⌋) hz
      have hgt : ⌊r⌋ < ⌈r⌉ := by
        have hc : (⌊r⌋ : ℚ) < (⌈r⌉ : ℚ) := lt_of_lt_of_le hlt (Int.le_ceil r)
        exact_mod_cast hc
      have hle1 : ⌈r⌉ ≤ ⌊r⌋ + 1 := by
        apply Int.ceil_le.mpr
        push_cast
        exact (Int.lt_floor_add_one r).le
      have hceq : ⌈r⌉ = ⌊r⌋ + 1 := by omega
      have hb1 : ((("star") : String) == ("star-half")) = false := by decide
      have hb3 : ((("star-half") : String) == ("star")) = false := by decide
      have hb5 : ((("star-outline") : String) == ("star")) = false := by decide
      have hb6 : ((("star-outline") : String) == ("star-half")) = false := by decide
      refine ⟨?_, ?_, ?_, ?_⟩ <;>
        simp [renderStars, hz, List.count_append, List.count_replicate_self,
          List.count_replicate, List.count_cons, hb1, hb3, hb5, hb6] <;>
        omega
  · unfold renderStars
    norm_num [Int.fract]
    decide
  · unfold renderStars
    norm_num [Int.fract]
    decide
  · have h1 : ⌊(7:ℚ)/2⌋ = 3 := by norm_num
    have h2 : ⌈(7:ℚ)/2⌉ = 4 := by
      rw [Int.ceil_eq_iff]
      norm_num
    unfold renderStars
    norm_num [Int.fract, h1, h2]
    decide
  · have h1 : ⌊(21:ℚ)/5⌋ = 4 := by norm_num
    have h2 : ⌈(21:ℚ)/5⌉ = 5 := by
      rw [Int.ceil_eq_iff]
      norm_num
    unfold renderStars
    norm_num [Int.fract, h1, h2]
    decide

/-- Witness for claim C4: the general glyph-count statement applied at the
rating 4.2. -/
theorem renderStars_glyph_counts_witness :
    (0 : ℚ) ≤ 21/5 ∧ (21 : ℚ)/5 ≤ 5 ∧ (renderStars (21/5)).length = 5 :=
  ⟨by norm_num, by norm_num,
   (renderStars_glyph_counts.1 (21/5) (by norm_num) (by norm_num)).1⟩

/-- Claim C5: after a run of successful sequential page fetches the
accumulated list equals the concatenation of the fetched pages in fetch order
and its length is the sum of the page sizes; and the success of the page-1
request issued by a filter change or a refresh replaces the whole list with
that response's page. -/
theorem accumulated_list_is_page_concat :
    (∀ (s : ListingState) (d : APIResponse) (ds : List APIResponse),
        (runPages s (d :: ds)).properties = ((d :: ds).map APIResponse.properties).flatten
      ∧ (runPages s (d :: ds)).properties.length
          = ((d :: ds).map (fun x => x.properties.length)).sum)
  ∧ (∀ (w : World) (f : FilterState) (d : APIResponse),
      (runEvents w [UIEvent.changeFilters f, UIEvent.respondSuccess w.pending.length d]).st.properties
        = d.properties)
  ∧ (∀ (w : World) (d : APIResponse),
      (runEvents w [UIEvent.refresh, UIEvent.respondSuccess w.pending.length d]).st.properties
        = d.properties) := by
  refine ⟨?_, ?_, ?_⟩
  · intro s d ds
    have hconcat : (runPages s (d :: ds)).properties
        = ((d :: ds).map APIResponse.properties).flatten := by
      have h := runPagesFrom_concat ds (fetchSuccess s 1 d) 2 (le_refl 2)
      simp only [runPages, runPagesFrom]
      rw [h]
      simp [fetchSuccess]
    refine ⟨hconcat, ?_⟩
    rw [hconcat]
    simp [List.length_flatten, List.map_map, Function.comp_def]
  · intro w f d
    simp [runEvents, step, applyFilterChange, fetchStart, fetchSuccess]
  · intro w d
    simp [runEvents, step, handleRefresh, fetchStart, fetchSuccess]

/-- Claim C6: after a successful response `hasMore` holds iff the requested
page number is strictly below the reported `total_pages`; and from any state
with `hasMore` false, any number of `loadMore` calls issues no request and
changes nothing. -/
theorem hasMore_iff_page_lt_total_pages :
    (∀ (s : ListingState) (pageNum : Nat) (d : APIResponse),
        ((fetchSuccess s pageNum d).hasMore = true ↔ pageNum < d.total_pages))
  ∧ (∀ (s : ListingState) (n : Nat), s.hasMore = false → loadMoreIter s n = (s, [])) := by
  constructor
  · intro s pageNum d
    simp [fetchSuccess]
  · intro s n h
    have hstep : handleLoadMore s = (s, none) := by
      unfold handleLoadMore
      rw [h]
      simp
    induction n with
    | zero => simp [loadMoreIter]
    | succ n ih => simp [loadMoreIter, hstep, ih]

/-- Witness for claim C6: pagination halts at the concrete halted state, and
the `hasMore` equivalence evaluated on a concrete two-page response. -/
theorem hasMore_iff_page_lt_total_pages_witness :
    sNoMore.hasMore = false
  ∧ loadMoreIter sNoMore 3 = (sNoMore, [])
  ∧ ((fetchSuccess initialState 1 respFirstOfTwo).hasMore = true
      ↔ 1 < respFirstOfTwo.total_pages) :=
  ⟨rfl, hasMore_iff_page_lt_total_pages.2 sNoMore 3 rfl,
   hasMore_iff_page_lt_total_pages.1 initialState 1 respFirstOfTwo⟩

/-- Claim C7 counterexample: from a ready state with the first of two pages
loaded, an infinite-scroll trigger issues a page-2 request; before any
response arrives, a second trigger of the same purpose is NOT ignored — the
`loading` flag is only ever set for first-page fetches, so the re-entrant
trigger passes the `!loading && hasMore` guard and issues a second network
request (for page 3), refuting the claim. -/
theorem reentrant_loadMore_issues_second_request :
    (runEvents worldReady [UIEvent.loadMore]).pending.map Request.pageNum = [2]
  ∧ (runEvents worldReady [UIEvent.loadMore, UIEvent.loadMore]).pending.map Request.pageNum = [2, 3]
  ∧ (runEvents worldReady [UIEvent.loadMore, UIEvent.loadMore]).pending.length = 2 :=
  ⟨rfl, rfl, rfl⟩

/-- Claim C7 (amended): a re-entrant trigger is ignored only while a
first-page fetch is in flight — while the `loading` flag is set,
`handleLoadMore` issues no request and leaves the state unchanged; during an
in-flight next-page fetch no flag is set and a re-entrant trigger issues a
further request. -/
theorem loadMore_ignored_while_first_page_in_flight :
    ∀ (s : ListingState), s.loading = true → handleLoadMore s = (s, none) := by
  intro s h
  unfold handleLoadMore
  rw [h]
  simp

/-- Witness for the amended claim C7 at a concrete loading state. -/
theorem loadMore_ignored_while_first_page_in_flight_witness :
    sLoading.loading = true ∧ handleLoadMore sLoading = (sLoading, none) :=
  ⟨rfl, loadMore_ignored_while_first_page_in_flight sLoading rfl⟩

/-- Claim C8: selecting a sub-location leaf sets the location filter to the
leaf's location and, unless that exact leaf was already selected, sets the
sub-location filter to the leaf's name; re-selecting the selected leaf clears
the sub-location only; switching from Lataguri to Chalsa under the
already-selected Dooars location yields sub_location Chalsa directly. -/
theorem subLocation_toggle_semantics :
    (∀ (f : FilterState) (loc nm : String),
        (selectSubLocationLeaf f loc nm).location = loc
      ∧ (f.location = loc → f.sub_location = nm →
          (selectSubLocationLeaf f loc nm).sub_location = (""))
      ∧ (¬ (f.location = loc ∧ f.sub_location = nm) →
          (selectSubLocationLeaf f loc nm).sub_location = nm))
  ∧ (selectSubLocationLeaf (selectSubLocationLeaf emptyFilters ("Dooars") ("Lataguri"))
      ("Dooars") ("Chalsa")).sub_location = ("Chalsa")
  ∧ (selectSubLocationLeaf (selectSubLocationLeaf emptyFilters ("Dooars") ("Lataguri"))
      ("Dooars") ("Chalsa")).location = ("Dooars")
  ∧ (selectSubLocationLeaf filtersSel ("Dooars") ("Lataguri")).sub_location = ("")
  ∧ (selectSubLocationLeaf filtersSel ("Dooars") ("Lataguri")).location = ("Dooars") := by
  refine ⟨?_, by decide, by decide, by decide, by decide⟩
  intro f loc nm
  refine ⟨rfl, ?_, ?_⟩
  · intro h1 h2
    simp [selectSubLocationLeaf, h1, h2]
  · intro h
    simp only [selectSubLocationLeaf]
    rw [if_neg h]

/-- Witness for claim C8: re-selecting the selected Lataguri leaf clears the
sub-location filter, with the toggle hypotheses discharged concretely. -/
theorem subLocation_toggle_semantics_witness :
    filtersSel.location = ("Dooars") ∧ filtersSel.sub_location = ("Lataguri")
  ∧ (selectSubLocationLeaf filtersSel ("Dooars") ("Lataguri")).sub_location = ("") :=
  ⟨rfl, rfl,
   (subLocation_toggle_semantics.1 filtersSel ("Dooars") ("Lataguri")).2.1 rfl rfl⟩

/-- Claim C9: the dial URL is `tel:` followed by the input with every
character that is neither a digit nor a plus removed (digits and pluses kept,
in order), and the WhatsApp URL uses the input's digits only: every surviving
character satisfies the respective predicate, the cleaned string is a
subsequence of the input, and every digit (and the plus, for dialling)
occurrence count is preserved. -/
theorem phone_number_cleaning :
    (∀ (p : String),
        handleCallUrl p = ("tel:") ++ cleanPhoneForCall p
      ∧ handleWhatsAppUrl p = ("whatsapp://send?phone=") ++ cleanPhoneForWhatsApp p
      ∧ (∀ c ∈ (cleanPhoneForCall p).data, c.isDigit = true ∨ c = '+')
      ∧ (cleanPhoneForCall p).data.Sublist p.data
      ∧ (cleanPhoneForCall p).data.count '+' = p.data.count '+'
      ∧ (∀ c, c.isDigit = true → (cleanPhoneForCall p).data.count c = p.data.count c)
      ∧ (∀ c ∈ (cleanPhoneForWhatsApp p).data, c.isDigit = true)
      ∧ (cleanPhoneForWhatsApp p).data.Sublist p.data
      ∧ (∀ c, c.isDigit = true → (cleanPhoneForWhatsApp p).data.count c = p.data.count c))
  ∧ cleanPhoneForCall phoneSample = ("+913412345678")
  ∧ cleanPhoneForWhatsApp phoneSample = ("913412345678") := by
  refine ⟨?_, by decide, by decide⟩
  intro p
  refine ⟨rfl, rfl, ?_, ?_, ?_, ?_, ?_, ?_, ?_⟩
  · intro c hc
    have h := (List.mem_filter.mp hc).2
    rcases Bool.or_eq_true_iff.mp h with h1 | h1
    · exact Or.inl h1
    · exact Or.inr (by simpa using h1)
  · exact List.filter_sublist _
  · exact List.count_filter (by decide)
  · intro c hc
    exact List.count_filter (by simp [hc])
  · intro c hc
    exact (List.mem_filter.mp hc).2
  · exact List.filter_sublist _
  · intro c hc
    exact List.count_filter (by simp [hc])

/-- Witness for claim C9: digit preservation applied at a concrete phone
number and the digit 3. -/
theorem phone_number_cleaning_witness :
    ('3').isDigit = true
  ∧ (cleanPhoneForCall phoneSample).data.count '3' = phoneSample.data.count '3' :=
  ⟨by decide, (phone_number_cleaning.1 phoneSample).2.2.2.2.2.1 '3' (by decide)⟩

/-- Claim C10: the query string always carries `page`, `per_page` and
`sort_by`; it carries `search`, `location`, `sub_location` and `category` iff
the corresponding filter string is non-empty, and `min_rating` iff the filter
is non-null and non-zero — so a zero minimum-rating threshold is omitted
exactly like null. -/
theorem query_params_iff_truthy :
    ∀ (pageNum : Nat) (f : FilterState),
      hasParam (buildParams pageNum f) ("page")
    ∧ hasParam (buildParams pageNum f) ("per_page")
    ∧ hasParam (buildParams pageNum f) ("sort_by")
    ∧ (hasParam (buildParams pageNum f) ("search") ↔ f.search ≠ (""))
    ∧ (hasParam (buildParams pageNum f) ("location") ↔ f.location ≠ (""))
    ∧ (hasParam (buildParams pageNum f) ("sub_location") ↔ f.sub_location ≠ (""))
    ∧ (hasParam (buildParams pageNum f) ("category") ↔ f.category ≠ (""))
    ∧ (hasParam (buildParams pageNum f) ("min_rating") ↔ (∃ r, f.min_rating = some r ∧ r ≠ 0)) := by
  intro pageNum f
  rcases hm : f.min_rating with _ | r
  · simp only [buildParams, hm, hasParam_append, hasParam_cons, hasParam_nil, hasParam_opt]
    simp
  · by_cases hr : r = 0
    · simp only [buildParams, hm, hr, hasParam_append, hasParam_cons, hasParam_nil, hasParam_opt]
      simp
    · simp only [buildParams, hm, hasParam_append, hasParam_cons, hasParam_nil, hasParam_opt]
      simp [hr]

/-- Witness for claim C10: on the initial (all-empty) filters with a zero
minimum rating, the query string carries `page` but no `search` parameter. -/
theorem query_params_iff_truthy_witness :
    hasParam (buildParams 1 emptyFilters) ("page")
  ∧ ¬ hasParam (buildParams 1 emptyFilters) ("search") :=
  ⟨(query_params_iff_truthy 1 emptyFilters).1,
   fun h => ((query_params_iff_truthy 1 emptyFilters).2.2.2.1).mp h rfl⟩
